import Mathlib

/-!
Shallow embedding of the agent-policies repository (Devleaps/agent-policies).

Embedded source files:
- `src/devleaps/policies/server/common/models.py` : event/decision data model,
  the `POLICY_PRECEDENCE` table;
- `src/devleaps/policies/example/main.py` : `bash_split_middleware`,
  `terraform_rule`, `python_test_file_rule`, `uv_bundle_rule` and their
  registration;
- `src/devleaps/policies/client/client.py` : `forward_hook` (request
  construction only; transport is out of scope);
- `src/devleaps/policies/client/config.py` : `ConfigManager.DEFAULT_CONFIG`,
  `_merge_configs`, `load_config`.

Python strings are modelled through their character lists, so that every
operation is structurally recursive and evaluates inside the kernel.  A Python
generator handler is modelled as a function returning `Option (List ...)`:
`some rs` is normal completion with the yielded results in order, `none` models
an uncaught exception (e.g. calling `.strip()` on `None`).
-/

/-! ### Python string primitives -/

/-- Whitespace characters recognised by Python's `str.strip` and the regex
class `\s` (ASCII range; the claims only involve ASCII commands). -/
def pyIsSpace (c : Char) : Bool :=
  c = ' ' || c = '\t' || c = '\n' || c = '\r' || c = '\x0b' || c = '\x0c'

/-- Python `str.strip()`: drop leading and trailing whitespace. -/
def pyStrip (s : String) : String :=
  String.mk (((s.data.dropWhile pyIsSpace).reverse.dropWhile pyIsSpace).reverse)

/-- Splitting worker for `pySplit`.  The fuel argument starts at the length of
the scanned list, which bounds the recursion; the fuel-exhausted branch is
unreachable for a non-empty separator. -/
def splitOnAux (sep : List Char) : Nat → List Char → List Char → List (List Char)
  | _, [], acc => [acc.reverse]
  | 0, cs, acc => [acc.reverse ++ cs]
  | fuel + 1, c :: rest, acc =>
    if sep.isPrefixOf (c :: rest) then
      acc.reverse :: splitOnAux sep fuel (List.drop sep.length (c :: rest)) []
    else
      splitOnAux sep fuel rest (c :: acc)

/-- Python `s.split(sep)` for a non-empty separator `sep`. -/
def pySplit (s sep : String) : List String :=
  (splitOnAux sep.data s.data.length s.data []).map String.mk

/-- Substring occurrence test on character lists. -/
def listContainsSub (needle : List Char) : List Char → Bool
  | [] => needle.isPrefixOf []
  | c :: rest => needle.isPrefixOf (c :: rest) || listContainsSub needle rest

/-- Python `needle in hay` for strings. -/
def pyIn (needle hay : String) : Bool := listContainsSub needle.data hay.data

/-- Python truthiness of an optional string (`None` and `""` are falsy). -/
def optStrFalsy : Option String → Bool
  | none => true
  | some s => s == ""

/-! ### Regex matchers

The example rules use `re.match` with a handful of fixed patterns.  Each
pattern is embedded as a full-backtracking matcher in continuation-passing
style over character lists: `litThen lit k` is the literal `lit` followed by
`k`, `spaces1Then k` is the regex piece matching one or more whitespace
characters followed by `k`, `dotStarThen k` is a greedy-or-not scan matching
any characters except a newline followed by `k`, and so on.  `re.match` only
anchors at the start of the string, so every top-level matcher ends in a
continuation that accepts any remainder. -/

/-- Literal characters, then continuation. -/
def litThen (lit : List Char) (k : List Char → Bool) (cs : List Char) : Bool :=
  lit.isPrefixOf cs && k (List.drop lit.length cs)

/-- Optional literal character `3` (regex piece matching an optional digit),
then continuation; both alternatives are tried. -/
def opt3Then (k : List Char → Bool) : List Char → Bool
  | '3' :: rest => k ('3' :: rest) || k rest
  | cs => k cs

/-- Zero or more whitespace characters, then continuation; all split points
are tried. -/
def spaces0Then (k : List Char → Bool) : List Char → Bool
  | [] => k []
  | c :: rest => k (c :: rest) || (pyIsSpace c && spaces0Then k rest)

/-- One or more whitespace characters, then continuation. -/
def spaces1Then (k : List Char → Bool) : List Char → Bool
  | [] => false
  | c :: rest => pyIsSpace c && spaces0Then k rest

/-- Any characters except newline, zero or more, then continuation; all split
points are tried. -/
def dotStarThen (k : List Char → Bool) : List Char → Bool
  | [] => k []
  | c :: rest => k (c :: rest) || (!(c == '\n') && dotStarThen k rest)

/-- End of string or a whitespace character: the regex piece spelt as a group
holding a whitespace class or the end anchor. -/
def endOrSpace : List Char → Bool
  | [] => true
  | c :: _ => pyIsSpace c

/-- One character other than a dash (negated character class), then
continuation. -/
def nonDashThen (k : List Char → Bool) : List Char → Bool
  | [] => false
  | c :: rest => !(c == '-') && k rest

/-- Pattern of `terraform_rule`: terraform, whitespace, apply, then a
whitespace character or the end of the string. -/
def matchTerraformApply (s : String) : Bool :=
  litThen "terraform".data (spaces1Then (litThen "apply".data endOrSpace)) s.data

/-- Pattern of `terraform_rule`: terraform, whitespace, fmt or plan, then a
whitespace character or the end of the string. -/
def matchTerraformFmtPlan (s : String) : Bool :=
  litThen "terraform".data (spaces1Then (fun cs =>
    litThen "fmt".data endOrSpace cs || litThen "plan".data endOrSpace cs)) s.data

/-- Pattern of `python_test_file_rule`: python, optional 3, whitespace, any
run, the underscore-test marker, any run, the .py suffix literal. -/
def matchPythonTestFile (s : String) : Bool :=
  litThen "python".data (opt3Then (spaces1Then (dotStarThen (litThen "test_".data
    (dotStarThen (litThen ".py".data (fun _ => true))))))) s.data

/-- Pattern of `uv_bundle_rule`: pip, then a whitespace character or the end
of the string. -/
def matchPip (s : String) : Bool :=
  litThen "pip".data endOrSpace s.data

/-- Pattern of `uv_bundle_rule`: python, optional 3, whitespace, -m,
whitespace, pip, then a whitespace character or the end of the string. -/
def matchPythonDashMPip (s : String) : Bool :=
  litThen "python".data (opt3Then (spaces1Then (litThen "-m".data
    (spaces1Then (litThen "pip".data endOrSpace))))) s.data

/-- Pattern of `uv_bundle_rule`: python, optional 3, whitespace, one character
that is not a dash. -/
def matchPythonNonDash (s : String) : Bool :=
  litThen "python".data (opt3Then (spaces1Then (nonDashThen (fun _ => true)))) s.data

/-- Pattern of `uv_bundle_rule`: python, optional 3, whitespace, any run, the
literal test. -/
def matchPythonThenTest (s : String) : Bool :=
  litThen "python".data (opt3Then (spaces1Then (dotStarThen (litThen "test".data
    (fun _ => true))))) s.data

/-! ### Event and decision data model (`server/common/models.py`) -/

/-- Modelled from the spec: `SourceClient` lives in
`server/common/enums.py`, which is not under src; the spec describes it as an
enum identifying which host editor produced the event, and the sources mention
exactly the Claude Code and Cursor editors. -/
inductive SourceClient where
  | claude_code
  | cursor
deriving DecidableEq

/-- Generic policy decision actions. -/
inductive PolicyAction where
  | allow
  | deny
  | ask
  | halt
deriving DecidableEq, BEq

/-- Policy decision precedence, highest priority first.  When multiple policy
decisions are returned, the first matching action in this list wins. -/
def POLICY_PRECEDENCE : List PolicyAction :=
  [PolicyAction.halt, PolicyAction.deny, PolicyAction.ask, PolicyAction.allow]

/-- A decision about whether to allow/deny/halt an action. -/
structure PolicyDecision where
  action : PolicyAction
  reason : Option String := none
deriving DecidableEq

/-- Guidance/context without making a decision.  The metadata mapping holds
opaque values; they are modelled as strings since the engine never interprets
them. -/
structure PolicyGuidance where
  content : String
  metadata : Option (List (String × String)) := none
deriving DecidableEq

/-- Generic representation of tool/command execution.  The base-event fields
`session_id`, `source_client`, `workspace_roots`, `source_event` are inlined
from `BaseEvent`; `source_event` is an opaque reference to the original
payload, modelled as an optional string since the engine never interprets it,
and likewise the values of the `parameters` mapping. -/
structure ToolUseEvent where
  session_id : String
  source_client : SourceClient
  workspace_roots : Option (List String) := none
  source_event : Option String := none
  tool_name : String := ""
  tool_is_bash : Bool := false
  tool_is_mcp : Bool := false
  command : Option String := none
  parameters : Option (List (String × String)) := none
deriving DecidableEq

/-- One element of a handler's yielded stream: either a decision or a
guidance entry. -/
inductive HandlerResult where
  | decision (d : PolicyDecision)
  | guidance (g : PolicyGuidance)
deriving DecidableEq

/-- The decisions among a handler-result stream, in emission order. -/
def decisionsOf : List HandlerResult → List PolicyDecision
  | [] => []
  | HandlerResult.decision d :: rest => d :: decisionsOf rest
  | HandlerResult.guidance _ :: rest => decisionsOf rest

/-- Modelled from the spec: the precedence resolution performed by the
executor, which is not under src.  Per the comment on `POLICY_PRECEDENCE`
("the first matching action in this list wins") and the spec ("the resolved
action equals the maximum under HALT>DENY>ASK>ALLOW"), the resolved action is
the first entry of the precedence table carried by some emitted decision;
`none` when no decision was emitted. -/
def resolveAction (ds : List PolicyDecision) : Option PolicyAction :=
  POLICY_PRECEDENCE.find? (fun a => ds.any (fun d => d.action == a))

/-! ### Example policy set (`example/main.py`) -/

/-- Middleware splitting a compound bash command on the conjunction separator
into one event per trimmed non-empty sub-command; non-bash events and events
with a falsy command pass through unchanged. -/
def bash_split_middleware (e : ToolUseEvent) : List ToolUseEvent :=
  if !e.tool_is_bash || optStrFalsy e.command then [e]
  else
    let cmd := e.command.getD ""
    if pyIn " && " cmd then
      ((pySplit cmd " && ").filter (fun c => pyStrip c ≠ "")).map
        (fun c => { e with command := some (pyStrip c) })
    else [e]

/-- Handler denying terraform apply and allowing terraform fmt/plan.  On a
bash event it strips the command field, so a bash event whose command is
`none` makes the Python original raise; that is the `none` result. -/
def terraform_rule (e : ToolUseEvent) : Option (List HandlerResult) :=
  if !e.tool_is_bash then some []
  else match e.command with
    | none => none
    | some c =>
      let command := pyStrip c
      some
        ((if matchTerraformApply command then
            [HandlerResult.decision
              { action := PolicyAction.deny,
                reason := some "terraform apply is not allowed. Use `terraform plan` instead." }]
          else []) ++
         (if matchTerraformFmtPlan command then
            [HandlerResult.decision { action := PolicyAction.allow }]
          else []))

/-- Handler denying direct python runs of underscore-test files, with one
guidance entry.  As with `terraform_rule`, a bash event with command `none`
makes the Python original raise. -/
def python_test_file_rule (e : ToolUseEvent) : Option (List HandlerResult) :=
  if !e.tool_is_bash then some []
  else match e.command with
    | none => none
    | some c =>
      if matchPythonTestFile (pyStrip c) then
        some
          [HandlerResult.decision
            { action := PolicyAction.deny,
              reason := some "Use `pytest` to run tests instead of python directly." },
           HandlerResult.guidance
            { content := "Consider using pytest with specific test markers or paths." }]
      else some []

/-- Handler of the uv bundle: block pip, python -m pip, and direct python
script runs.  The three branches are mutually exclusive in the original (each
ends in a return), hence the if-chain. -/
def uv_bundle_rule (e : ToolUseEvent) : Option (List HandlerResult) :=
  if !e.tool_is_bash then some []
  else match e.command with
    | none => none
    | some c =>
      let command := pyStrip c
      if matchPip command then
        some
          [HandlerResult.decision
            { action := PolicyAction.deny,
              reason := some "Use `uv` instead of pip for package management." },
           HandlerResult.guidance
            { content := "Replace `pip install` with `uv pip install` or `uv add` for dependency management." }]
      else if matchPythonDashMPip command then
        some
          [HandlerResult.decision
            { action := PolicyAction.deny,
              reason := some "Use `uv` instead of python -m pip." }]
      else if matchPythonNonDash command && !matchPythonThenTest command then
        some
          [HandlerResult.decision
            { action := PolicyAction.deny,
              reason := some "Use `uv run python` to execute scripts." }]
      else some []

/-- A registered handler entry: the handler function together with its
optional bundle tag, as stored by `register_handler`. -/
structure Handler where
  run : ToolUseEvent → Option (List HandlerResult)
  bundle : Option String := none

/-- The registration performed in the main block of `example/main.py`:
`register_handler(ToolUseEvent, uv_bundle_rule, bundle="uv")`. -/
def uv_handler : Handler :=
  { run := uv_bundle_rule, bundle := some "uv" }

/-- Modelled from the spec: the executor's bundle gating, which is not under
src.  A handler tagged with bundle B only executes when B is present in the
caller-supplied active-bundle set; an untagged handler always executes; a
gated-out handler contributes nothing. -/
def runHandlerGated (activeBundles : List String) (h : Handler) (e : ToolUseEvent) :
    Option (List HandlerResult) :=
  match h.bundle with
  | none => h.run e
  | some b => if b ∈ activeBundles then h.run e else some []

/-! ### Client configuration (`client/config.py`) and forwarding (`client/client.py`)

A Python JSON-ish value is embedded as `PyValue`; a dict is an association
list with the keys in insertion order and no duplicate keys in any dict that
Python itself would build (the lemmas below hold for arbitrary lists, with
first-occurrence lookup semantics). -/

/-- A JSON-like configuration/payload value. -/
inductive PyValue where
  | str (s : String)
  | strList (xs : List String)
  | dict (entries : List (String × PyValue))
  | null

/-- Python `d.get(k)`: first value bound to `k`, if any. -/
def lookupKey (k : String) : List (String × PyValue) → Option PyValue
  | [] => none
  | (k', v) :: rest => if k' = k then some v else lookupKey k rest

/-- Python truthiness of a `PyValue` (`None`, `""`, `[]`, the empty dict are
falsy). -/
def pyTruthy : PyValue → Bool
  | PyValue.str s => !(s == "")
  | PyValue.strList xs => !xs.isEmpty
  | PyValue.dict d => !d.isEmpty
  | PyValue.null => false

/-- Python `base.update(upd)` on dicts, as a pure function: keys already in
`base` keep their position and take their value from `upd` when present; keys
only in `upd` are appended in `upd` order. -/
def dictUpdate (base upd : List (String × PyValue)) : List (String × PyValue) :=
  base.map (fun kv =>
    match lookupKey kv.1 upd with
    | some v => (kv.1, v)
    | none => kv) ++
  upd.filter (fun kv => (lookupKey kv.1 base).isNone)

/-- Default configuration of `ConfigManager`. -/
def DEFAULT_CONFIG : List (String × PyValue) :=
  [("bundles", PyValue.strList []),
   ("editor", PyValue.str "claude-code"),
   ("server_url", PyValue.str "http://localhost:8338")]

/-- Merge home and project configs over the defaults, with project taking
precedence (copy the defaults, update with home, update with project). -/
def merge_configs (home_config project_config : List (String × PyValue)) :
    List (String × PyValue) :=
  dictUpdate (dictUpdate DEFAULT_CONFIG home_config) project_config

/-- Load and merge configuration from home and project directories.  The
filesystem reads are abstracted into the two arguments: each stands for the
parsed content of the respective config file, with the empty dict standing for
a missing or unparsable file exactly as in `_load_config_file`. -/
def load_config (home_config project_config : List (String × PyValue)) :
    List (String × PyValue) :=
  merge_configs home_config project_config

/-- Modelled from the spec: `ConfigManager.get_default_policy_behavior` is
called by `forward_hook` but absent from `config.py` under src.  Per the spec
the request body carries a `default_policy_behavior` optional string obtained
from the loaded configuration, so it is modelled as the config lookup of that
key, absent mapped to the null value. -/
def get_default_policy_behavior (config : List (String × PyValue)) : PyValue :=
  (lookupKey "default_policy_behavior" config).getD PyValue.null

/-- The HTTP request `forward_hook` would issue: target path and JSON body. -/
structure ForwardRequest where
  endpoint : String
  body : List (String × PyValue)

/-- Request construction of `forward_hook`: load and merge the configuration,
read the default policy behavior from it, extract `hook_event_name` from the
payload, and on success build the wrapped body and the per-editor endpoint
path.  `none` models the early error exit (missing or falsy
`hook_event_name`); the transport call itself is out of scope.  The
`hook_event_name` value is modelled as a string, which is what every host
editor's hook protocol sends. -/
def forward_hook (editor : String) (bundles : List String)
    (home_config project_config : List (String × PyValue))
    (payload : List (String × PyValue)) : Option ForwardRequest :=
  let config := load_config home_config project_config
  let default_behavior := get_default_policy_behavior config
  match lookupKey "hook_event_name" payload with
  | none => none
  | some hev =>
    if !pyTruthy hev then none
    else match hev with
      | PyValue.str name =>
        some
          { endpoint := "/policy/" ++ editor ++ "/" ++ name,
            body := [("bundles", PyValue.strList bundles),
                     ("default_policy_behavior", default_behavior),
                     ("event", PyValue.dict payload)] }
      | _ => none

/-! ### Helper lemmas -/

/-- Permutation invariance of the boolean existential over a list. -/
theorem perm_any_eq {α : Type} (p : α → Bool) {l₁ l₂ : List α} (h : l₁.Perm l₂) :
    l₁.any p = l₂.any p := by
  rw [Bool.eq_iff_iff]
  simp only [List.any_eq_true]
  exact ⟨fun ⟨x, hx, hp⟩ => ⟨x, h.mem_iff.mp hx, hp⟩,
         fun ⟨x, hx, hp⟩ => ⟨x, h.mem_iff.mpr hx, hp⟩⟩

/-- Lookup in a concatenation tries the left list first. -/
theorem lookupKey_append (k : String) (xs ys : List (String × PyValue)) :
    lookupKey k (xs ++ ys) = (lookupKey k xs).orElse (fun _ => lookupKey k ys) := by
  induction xs with
  | nil => simp [lookupKey]
  | cons kv rest ih =>
    rcases kv with ⟨k', v⟩
    by_cases h : k' = k
    · simp [lookupKey, h]
    · simp [lookupKey, h, ih]

/-- Lookup in the value-replacing map of `dictUpdate`. -/
theorem lookupKey_map_update (k : String) (b u : List (String × PyValue)) :
    lookupKey k (b.map (fun kv => match lookupKey kv.1 u with
      | some v => (kv.1, v) | none => kv)) =
    match lookupKey k b with
    | none => none
    | some w => some ((lookupKey k u).getD w) := by
  induction b with
  | nil => simp [lookupKey]
  | cons kv rest ih =>
    rcases kv with ⟨k', v⟩
    by_cases h : k' = k
    · subst h
      cases hu : lookupKey k' u <;> simp [lookupKey, hu]
    · cases hu : lookupKey k' u <;> simp [lookupKey, h, hu, ih]

/-- Lookup in the appended-new-keys filter of `dictUpdate`. -/
theorem lookupKey_filter_isNone (k : String) (u b : List (String × PyValue)) :
    lookupKey k (u.filter (fun kv => (lookupKey kv.1 b).isNone)) =
    if (lookupKey k b).isNone then lookupKey k u else none := by
  induction u with
  | nil => simp [lookupKey]
  | cons kv rest ih =>
    rcases kv with ⟨k', v⟩
    by_cases h : k' = k
    · subst h
      cases hb : (lookupKey k' b).isNone <;>
        simp [List.filter_cons, lookupKey, hb, ih]
    · cases hb : (lookupKey k' b).isNone <;>
        cases hpb : (lookupKey k b).isNone <;>
          simp [List.filter_cons, lookupKey, h, hb, hpb, ih]

/-- Lookup after a Python dict update: the updating dict wins. -/
theorem lookupKey_dictUpdate (k : String) (b u : List (String × PyValue)) :
    lookupKey k (dictUpdate b u) = (lookupKey k u).orElse (fun _ => lookupKey k b) := by
  unfold dictUpdate
  rw [lookupKey_append, lookupKey_map_update, lookupKey_filter_isNone]
  cases hb : lookupKey k b <;> cases hu : lookupKey k u <;> simp [hb, hu, Option.orElse]

/-! ### Claim theorems -/

/-- C1: `POLICY_PRECEDENCE` lists the actions highest-priority first in
exactly the order HALT, DENY, ASK, ALLOW; for every non-empty list of
decisions a resolved action exists; and the resolved action is invariant
under permutation of the decisions, i.e. independent of emission order. -/
theorem precedence_table_order_and_invariance :
    POLICY_PRECEDENCE =
      [PolicyAction.halt, PolicyAction.deny, PolicyAction.ask, PolicyAction.allow] ∧
    (∀ ds : List PolicyDecision, ds ≠ [] → (resolveAction ds).isSome) ∧
    (∀ ds₁ ds₂ : List PolicyDecision, ds₁.Perm ds₂ →
      resolveAction ds₁ = resolveAction ds₂) := by
  refine ⟨rfl, ?_, ?_⟩
  · intro ds hne
    rw [resolveAction, List.find?_isSome]
    match ds, hne with
    | d :: rest, _ =>
      refine ⟨d.action, ?_, ?_⟩
      · cases d.action <;> simp [POLICY_PRECEDENCE]
      · simp only [List.any_eq_true, List.mem_cons]
        exact ⟨d, Or.inl rfl, by cases d.action <;> rfl⟩
  · intro ds₁ ds₂ hperm
    exact congrArg POLICY_PRECEDENCE.find?
      (funext fun a => perm_any_eq (fun d => d.action == a) hperm)

/-- Witness for C1 at concrete decision lists. -/
theorem precedence_table_order_and_invariance_witness :
    (resolveAction [{ action := PolicyAction.allow }]).isSome = true ∧
    resolveAction [{ action := PolicyAction.allow }, { action := PolicyAction.deny }] =
      resolveAction [{ action := PolicyAction.deny }, { action := PolicyAction.allow }] :=
  ⟨precedence_table_order_and_invariance.2.1 _ (by decide),
   precedence_table_order_and_invariance.2.2 _ _ (by decide)⟩

/-- C2: on a bash event whose command is the pip-then-terraform compound
command, `bash_split_middleware` yields exactly the two sub-events, in order;
`terraform_rule` yields nothing on the first sub-event and a DENY decision on
the second; and the highest-precedence action among all decisions emitted
across both sub-events is DENY. -/
theorem compound_command_split_resolves_deny (e : ToolUseEvent)
    (hb : e.tool_is_bash = true)
    (hc : e.command = some "pip install && terraform apply") :
    bash_split_middleware e =
      [{ e with command := some "pip install" },
       { e with command := some "terraform apply" }] ∧
    terraform_rule { e with command := some "pip install" } = some [] ∧
    terraform_rule { e with command := some "terraform apply" } =
      some [HandlerResult.decision
        { action := PolicyAction.deny,
          reason := some "terraform apply is not allowed. Use `terraform plan` instead." }] ∧
    resolveAction (decisionsOf ([] ++
      [HandlerResult.decision
        { action := PolicyAction.deny,
          reason := some "terraform apply is not allowed. Use `terraform plan` instead." }])) =
      some PolicyAction.deny := by
  obtain ⟨sid, sc, wr, se, tn, tb, tm, cmd, ps⟩ := e
  simp only at hb hc
  subst hb; subst hc
  exact ⟨rfl, rfl, rfl, rfl⟩

/-- Witness for C2 at a concrete cursor shell event. -/
theorem compound_command_split_resolves_deny_witness :
    bash_split_middleware ⟨"s1", SourceClient.cursor, none, none, "Bash", true, false,
        some "pip install && terraform apply", none⟩ =
      [⟨"s1", SourceClient.cursor, none, none, "Bash", true, false, some "pip install", none⟩,
       ⟨"s1", SourceClient.cursor, none, none, "Bash", true, false, some "terraform apply", none⟩] ∧
    terraform_rule ⟨"s1", SourceClient.cursor, none, none, "Bash", true, false,
        some "pip install", none⟩ = some [] ∧
    terraform_rule ⟨"s1", SourceClient.cursor, none, none, "Bash", true, false,
        some "terraform apply", none⟩ =
      some [HandlerResult.decision
        { action := PolicyAction.deny,
          reason := some "terraform apply is not allowed. Use `terraform plan` instead." }] ∧
    resolveAction (decisionsOf ([] ++
      [HandlerResult.decision
        { action := PolicyAction.deny,
          reason := some "terraform apply is not allowed. Use `terraform plan` instead." }])) =
      some PolicyAction.deny :=
  compound_command_split_resolves_deny ⟨"s1", SourceClient.cursor, none, none, "Bash", true,
    false, some "pip install && terraform apply", none⟩ rfl rfl

/-- C3: on every bash event with a non-empty command containing the
conjunction separator, `bash_split_middleware` yields one event per non-empty
trimmed sub-command, in order, and every yielded event agrees with the input
event on every field other than the command. -/
theorem bash_split_middleware_frame (e : ToolUseEvent) (c : String)
    (hb : e.tool_is_bash = true) (hc : e.command = some c) (hne : c ≠ "")
    (hsep : pyIn " && " c = true) :
    bash_split_middleware e =
      ((pySplit c " && ").filter (fun s => pyStrip s ≠ "")).map
        (fun s => { e with command := some (pyStrip s) }) ∧
    ∀ ev ∈ bash_split_middleware e,
      ev.session_id = e.session_id ∧ ev.source_client = e.source_client ∧
      ev.workspace_roots = e.workspace_roots ∧ ev.source_event = e.source_event ∧
      ev.tool_name = e.tool_name ∧ ev.tool_is_bash = e.tool_is_bash ∧
      ev.tool_is_mcp = e.tool_is_mcp ∧ ev.parameters = e.parameters := by
  have h1 : bash_split_middleware e =
      ((pySplit c " && ").filter (fun s => pyStrip s ≠ "")).map
        (fun s => { e with command := some (pyStrip s) }) := by
    unfold bash_split_middleware
    rw [hb, hc]
    simp only [Bool.not_true, Bool.false_or, Option.getD_some]
    rw [show optStrFalsy (some c) = false by simp [optStrFalsy, hne], hsep]
    simp
  refine ⟨h1, ?_⟩
  intro ev hev
  rw [h1] at hev
  simp only [List.mem_map] at hev
  obtain ⟨s, _, rfl⟩ := hev
  exact ⟨rfl, rfl, rfl, rfl, rfl, rfl, rfl, rfl⟩

/-- Witness for C3: the frame conclusion at a concrete compound command and
its first yielded sub-event. -/
theorem bash_split_middleware_frame_witness :
    (⟨"s1", SourceClient.cursor, none, none, "Bash", true, false,
        some "pip install", none⟩ : ToolUseEvent).session_id =
      (⟨"s1", SourceClient.cursor, none, none, "Bash", true, false,
        some "pip install && terraform apply", none⟩ : ToolUseEvent).session_id ∧
    (⟨"s1", SourceClient.cursor, none, none, "Bash", true, false,
        some "pip install", none⟩ : ToolUseEvent).source_client =
      (⟨"s1", SourceClient.cursor, none, none, "Bash", true, false,
        some "pip install && terraform apply", none⟩ : ToolUseEvent).source_client ∧
    (⟨"s1", SourceClient.cursor, none, none, "Bash", true, false,
        some "pip install", none⟩ : ToolUseEvent).workspace_roots =
      (⟨"s1", SourceClient.cursor, none, none, "Bash", true, false,
        some "pip install && terraform apply", none⟩ : ToolUseEvent).workspace_roots ∧
    (⟨"s1", SourceClient.cursor, none, none, "Bash", true, false,
        some "pip install", none⟩ : ToolUseEvent).source_event =
      (⟨"s1", SourceClient.cursor, none, none, "Bash", true, false,
        some "pip install && terraform apply", none⟩ : ToolUseEvent).source_event ∧
    (⟨"s1", SourceClient.cursor, none, none, "Bash", true, false,
        some "pip install", none⟩ : ToolUseEvent).tool_name =
      (⟨"s1", SourceClient.cursor, none, none, "Bash", true, false,
        some "pip install && terraform apply", none⟩ : ToolUseEvent).tool_name ∧
    (⟨"s1", SourceClient.cursor, none, none, "Bash", true, false,
        some "pip install", none⟩ : ToolUseEvent).tool_is_bash =
      (⟨"s1", SourceClient.cursor, none, none, "Bash", true, false,
        some "pip install && terraform apply", none⟩ : ToolUseEvent).tool_is_bash ∧
    (⟨"s1", SourceClient.cursor, none, none, "Bash", true, false,
        some "pip install", none⟩ : ToolUseEvent).tool_is_mcp =
      (⟨"s1", SourceClient.cursor, none, none, "Bash", true, false,
        some "pip install && terraform apply", none⟩ : ToolUseEvent).tool_is_mcp ∧
    (⟨"s1", SourceClient.cursor, none, none, "Bash", true, false,
        some "pip install", none⟩ : ToolUseEvent).parameters =
      (⟨"s1", SourceClient.cursor, none, none, "Bash", true, false,
        some "pip install && terraform apply", none⟩ : ToolUseEvent).parameters :=
  (bash_split_middleware_frame ⟨"s1", SourceClient.cursor, none, none, "Bash", true, false,
      some "pip install && terraform apply", none⟩
    "pip install && terraform apply" rfl rfl (by decide) (by decide)).2
    ⟨"s1", SourceClient.cursor, none, none, "Bash", true, false, some "pip install", none⟩
    (by decide)

/-- C4: on every bash event whose stripped command is the terraform apply
command, `terraform_rule` yields exactly one decision, a DENY whose reason
text contains the word plan. -/
theorem terraform_apply_denied_with_plan_reason (e : ToolUseEvent) (c : String)
    (hb : e.tool_is_bash = true) (hc : e.command = some c)
    (hs : pyStrip c = "terraform apply") :
    terraform_rule e =
      some [HandlerResult.decision
        { action := PolicyAction.deny,
          reason := some "terraform apply is not allowed. Use `terraform plan` instead." }] ∧
    pyIn "plan" "terraform apply is not allowed. Use `terraform plan` instead." = true := by
  refine ⟨?_, by decide⟩
  unfold terraform_rule
  rw [hb, hc]
  simp only [Bool.not_true, Bool.false_eq_true, if_false, hs]
  decide

/-- Witness for C4 at a whitespace-padded concrete command. -/
theorem terraform_apply_denied_with_plan_reason_witness :
    terraform_rule ⟨"s2", SourceClient.cursor, none, none, "Bash", true, false,
        some "  terraform apply  ", none⟩ =
      some [HandlerResult.decision
        { action := PolicyAction.deny,
          reason := some "terraform apply is not allowed. Use `terraform plan` instead." }] ∧
    pyIn "plan" "terraform apply is not allowed. Use `terraform plan` instead." = true :=
  terraform_apply_denied_with_plan_reason ⟨"s2", SourceClient.cursor, none, none, "Bash", true,
    false, some "  terraform apply  ", none⟩ "  terraform apply  " rfl rfl (by decide)

/-- C5: on every bash event whose stripped command is the terraform plan
command, `terraform_rule` yields exactly one decision, an ALLOW with no
reason, so the resolved action for that event is ALLOW. -/
theorem terraform_plan_allowed (e : ToolUseEvent) (c : String)
    (hb : e.tool_is_bash = true) (hc : e.command = some c)
    (hs : pyStrip c = "terraform plan") :
    terraform_rule e = some [HandlerResult.decision { action := PolicyAction.allow }] ∧
    resolveAction (decisionsOf [HandlerResult.decision { action := PolicyAction.allow }]) =
      some PolicyAction.allow := by
  refine ⟨?_, by decide⟩
  unfold terraform_rule
  rw [hb, hc]
  simp only [Bool.not_true, Bool.false_eq_true, if_false, hs]
  decide

/-- Witness for C5 at a tab-padded concrete command. -/
theorem terraform_plan_allowed_witness :
    terraform_rule ⟨"s3", SourceClient.cursor, none, none, "Bash", true, false,
        some "\tterraform plan\t", none⟩ =
      some [HandlerResult.decision { action := PolicyAction.allow }] ∧
    resolveAction (decisionsOf [HandlerResult.decision { action := PolicyAction.allow }]) =
      some PolicyAction.allow :=
  terraform_plan_allowed ⟨"s3", SourceClient.cursor, none, none, "Bash", true, false,
    some "\tterraform plan\t", none⟩ "\tterraform plan\t" rfl rfl (by decide)

/-- C6: for every payload holding a non-empty hook event name, `forward_hook`
builds a request whose body has exactly the keys bundles (the caller-supplied
bundle list), default_policy_behavior (obtained from the loaded configuration)
and event (the raw payload), targeted at the per-editor path for that hook
event name. -/
theorem forward_hook_request_shape (editor : String) (bundles : List String)
    (home_config project_config payload : List (String × PyValue)) (name : String)
    (hev : lookupKey "hook_event_name" payload = some (PyValue.str name))
    (hne : name ≠ "") :
    forward_hook editor bundles home_config project_config payload =
      some { endpoint := "/policy/" ++ editor ++ "/" ++ name,
             body := [("bundles", PyValue.strList bundles),
                      ("default_policy_behavior",
                        get_default_policy_behavior (load_config home_config project_config)),
                      ("event", PyValue.dict payload)] } := by
  unfold forward_hook
  rw [hev]
  simp [pyTruthy, hne]

/-- Witness for C6 at a concrete editor, bundle list, configuration pair and
payload; the default policy behavior evaluates to the home-config value. -/
theorem forward_hook_request_shape_witness :
    forward_hook "claude-code" ["uv"] [("default_policy_behavior", PyValue.str "ask")] []
        [("hook_event_name", PyValue.str "PreToolUse")] =
      some { endpoint := "/policy/claude-code/PreToolUse",
             body := [("bundles", PyValue.strList ["uv"]),
                      ("default_policy_behavior", PyValue.str "ask"),
                      ("event", PyValue.dict [("hook_event_name", PyValue.str "PreToolUse")])] } :=
  forward_hook_request_shape "claude-code" ["uv"] [("default_policy_behavior", PyValue.str "ask")]
    [] [("hook_event_name", PyValue.str "PreToolUse")] "PreToolUse" rfl (by decide)

/-- C7: `uv_bundle_rule` is registered under the uv bundle; a gated handler
emits nothing for any event when the uv bundle is absent from the active set;
and when the uv bundle is active, the handler yields a DENY decision on a bash
event running a python script. -/
theorem uv_bundle_rule_gating :
    uv_handler.bundle = some "uv" ∧
    (∀ (activeBundles : List String) (e : ToolUseEvent), "uv" ∉ activeBundles →
      runHandlerGated activeBundles uv_handler e = some []) ∧
    (∀ (activeBundles : List String) (e : ToolUseEvent), "uv" ∈ activeBundles →
      e.tool_is_bash = true → e.command = some "python script.py" →
      runHandlerGated activeBundles uv_handler e =
        some [HandlerResult.decision
          { action := PolicyAction.deny,
            reason := some "Use `uv run python` to execute scripts." }]) := by
  refine ⟨rfl, ?_, ?_⟩
  · intro activeBundles e hnb
    simp [runHandlerGated, uv_handler, hnb]
  · intro activeBundles e hm hb hc
    obtain ⟨sid, sc, wr, se, tn, tb, tm, cmd, ps⟩ := e
    simp only at hb hc
    subst hb; subst hc
    simp only [runHandlerGated, uv_handler, if_pos hm]
    rfl

/-- Witness for C7: the gated handler at empty and at uv-containing active
bundle sets on a concrete python script event. -/
theorem uv_bundle_rule_gating_witness :
    runHandlerGated [] uv_handler ⟨"s4", SourceClient.claude_code, none, none, "Bash", true,
        false, some "python script.py", none⟩ = some [] ∧
    runHandlerGated ["uv"] uv_handler ⟨"s4", SourceClient.claude_code, none, none, "Bash", true,
        false, some "python script.py", none⟩ =
      some [HandlerResult.decision
        { action := PolicyAction.deny,
          reason := some "Use `uv run python` to execute scripts." }] :=
  ⟨uv_bundle_rule_gating.2.1 [] ⟨"s4", SourceClient.claude_code, none, none, "Bash", true,
      false, some "python script.py", none⟩ (by decide),
   uv_bundle_rule_gating.2.2 ["uv"] ⟨"s4", SourceClient.claude_code, none, none, "Bash", true,
      false, some "python script.py", none⟩ (by decide) rfl rfl⟩

/-- C8: on every bash event whose stripped command matches the
python-test-file pattern, `python_test_file_rule` yields exactly one DENY
decision followed by exactly one guidance entry; on every non-bash event it
yields nothing. -/
theorem python_test_file_rule_yields :
    (∀ (e : ToolUseEvent) (c : String), e.tool_is_bash = true → e.command = some c →
      matchPythonTestFile (pyStrip c) = true →
      python_test_file_rule e =
        some [HandlerResult.decision
          { action := PolicyAction.deny,
            reason := some "Use `pytest` to run tests instead of python directly." },
          HandlerResult.guidance
          { content := "Consider using pytest with specific test markers or paths." }]) ∧
    (∀ e : ToolUseEvent, e.tool_is_bash = false → python_test_file_rule e = some []) := by
  constructor
  · intro e c hb hc hm
    unfold python_test_file_rule
    rw [hb, hc]
    simp [hm]
  · intro e hb
    unfold python_test_file_rule
    rw [hb]
    simp

/-- Witness for C8 at a concrete test-file command and a concrete non-bash
event. -/
theorem python_test_file_rule_yields_witness :
    python_test_file_rule ⟨"s5", SourceClient.claude_code, none, none, "Bash", true, false,
        some "python test_foo.py", none⟩ =
      some [HandlerResult.decision
        { action := PolicyAction.deny,
          reason := some "Use `pytest` to run tests instead of python directly." },
        HandlerResult.guidance
        { content := "Consider using pytest with specific test markers or paths." }] ∧
    python_test_file_rule ⟨"s5", SourceClient.claude_code, none, none, "WebFetch", false, false,
        none, none⟩ = some [] :=
  ⟨python_test_file_rule_yields.1 ⟨"s5", SourceClient.claude_code, none, none, "Bash", true,
      false, some "python test_foo.py", none⟩ "python test_foo.py" rfl rfl (by decide),
   python_test_file_rule_yields.2 ⟨"s5", SourceClient.claude_code, none, none, "WebFetch",
      false, false, none, none⟩ rfl⟩

/-- C9: each of the three bash handlers strips the command without a None
guard, so on a bash event whose command is absent each of them raises instead
of yielding nothing; the raise is the `none` result of the embedding. -/
theorem bash_rules_raise_on_none_command (e : ToolUseEvent)
    (hb : e.tool_is_bash = true) (hc : e.command = none) :
    terraform_rule e = none ∧ python_test_file_rule e = none ∧ uv_bundle_rule e = none := by
  unfold terraform_rule python_test_file_rule uv_bundle_rule
  simp only [hb, hc]
  simp

/-- Witness for C9 at a concrete bash event with an absent command. -/
theorem bash_rules_raise_on_none_command_witness :
    terraform_rule ⟨"s6", SourceClient.claude_code, none, none, "Bash", true, false,
        none, none⟩ = none ∧
    python_test_file_rule ⟨"s6", SourceClient.claude_code, none, none, "Bash", true, false,
        none, none⟩ = none ∧
    uv_bundle_rule ⟨"s6", SourceClient.claude_code, none, none, "Bash", true, false,
        none, none⟩ = none :=
  bash_rules_raise_on_none_command ⟨"s6", SourceClient.claude_code, none, none, "Bash", true,
    false, none, none⟩ rfl rfl

/-- C10: the merged configuration always carries at least the bundles, editor
and server_url keys, and for every key the merged value is the project-level
value when the project config defines it, otherwise the home-level value when
the home config defines it, otherwise the default. -/
theorem load_config_layered_merge (home_config project_config : List (String × PyValue)) :
    ((lookupKey "bundles" (load_config home_config project_config)).isSome ∧
     (lookupKey "editor" (load_config home_config project_config)).isSome ∧
     (lookupKey "server_url" (load_config home_config project_config)).isSome) ∧
    ∀ k : String, lookupKey k (load_config home_config project_config) =
      (lookupKey k project_config).orElse (fun _ =>
        (lookupKey k home_config).orElse (fun _ => lookupKey k DEFAULT_CONFIG)) := by
  have hmain : ∀ k : String, lookupKey k (load_config home_config project_config) =
      (lookupKey k project_config).orElse (fun _ =>
        (lookupKey k home_config).orElse (fun _ => lookupKey k DEFAULT_CONFIG)) := by
    intro k
    unfold load_config merge_configs
    simp only [lookupKey_dictUpdate]
  refine ⟨⟨?_, ?_, ?_⟩, hmain⟩ <;> rw [hmain]
  · cases lookupKey "bundles" project_config <;> cases lookupKey "bundles" home_config <;>
      simp [Option.orElse, lookupKey, DEFAULT_CONFIG]
  · cases lookupKey "editor" project_config <;> cases lookupKey "editor" home_config <;>
      simp [Option.orElse, lookupKey, DEFAULT_CONFIG]
  · cases lookupKey "server_url" project_config <;> cases lookupKey "server_url" home_config <;>
      simp [Option.orElse, lookupKey, DEFAULT_CONFIG]
